import Mathlib

/-!
Verification of the SEI DeFi leverage-monitoring repository.

Shallow embedding conventions:
* JavaScript `number` values are modelled as `ℚ`.  All numeric literals of the
  source (`0.8`, `0.25`, `0.45`, ...) are exact rationals here; at every input a
  theorem below evaluates, the float and rational orderings agree.
* JS division by zero yields `Infinity`/`NaN` while `ℚ` division by zero yields
  `0`.  The single place this matters is `getPositionHealth` at
  `collateral = 0` (claim about the missing zero-collateral guard); the
  statements proved there depend only on the absence of a thrown error and on
  the snapshot being recorded, never on the value of the unguarded quotient.
* `Date` timestamps are modelled as `ℕ` tick values supplied by the caller.
* Methods that can throw are embedded as functions taking the result of their
  I/O step as an `Except` argument; methods whose bodies contain no `throw`
  and catch all inner errors return plain values.
-/

/-- JS `Array.prototype.slice(-n)`: the last `n` elements (the whole list when
it is shorter than `n`). -/
def takeLast {α : Type} (n : ℕ) (xs : List α) : List α :=
  xs.drop (xs.length - n)

/-- The history-append idiom of `LeverageMonitor`:
`arr.push(x); if (arr.length > cap) arr = arr.slice(-cap);`. -/
def capPush {α : Type} (cap : ℕ) (xs : List α) (x : α) : List α :=
  let ys := xs ++ [x]
  if cap < ys.length then takeLast cap ys else ys

/-- Alert severity levels (`'INFO' | 'WARNING' | 'CRITICAL'`). -/
inductive AlertLevel where
  | INFO
  | WARNING
  | CRITICAL
deriving DecidableEq, Repr

/-- `MonitoringAlert` interface of the monitor module. -/
structure MonitoringAlert where
  level : AlertLevel
  message : String
  timestamp : ℕ
  actionRequired : Bool
deriving DecidableEq, Repr

/-- `PositionSnapshot` interface of the monitor module. -/
structure PositionSnapshot where
  timestamp : ℕ
  collateral : ℚ
  debt : ℚ
  healthFactor : ℚ
  ltv : ℚ
  seiPrice : ℚ
  liquidationPrice : ℚ
  netPnL : ℚ
deriving DecidableEq, Repr

/-- `YeiPosition` interface of `yei-finance-real.ts`. -/
structure YeiPosition where
  collateral : ℚ
  debt : ℚ
  healthFactor : ℚ
  ltv : ℚ
deriving DecidableEq, Repr

/-- An error surfaced by the external position source (network / protocol
failure, uninitialized client, ...), carrying its rendered message. -/
structure SourceError where
  msg : String
deriving DecidableEq, Repr

/-- Raw `get_user_position` payload after the `parseInt(x || '0')` step:
collateral and debt in micro-SEI. -/
structure RawPositionData where
  collateral : ℕ
  debt : ℕ
deriving DecidableEq, Repr

namespace YeiFinanceClient

/-- `const liquidationThreshold = 0.80` of `calculateLiquidationPrice`; the
same `0.8` constant is hard-coded in `getPositionHealth` ("Assuming 80%
liquidation threshold") and in the monitor's emergency projection. -/
def liquidationThreshold : ℚ := 4/5

/-- `calculateLiquidationPrice(collateral, debt)` of `yei-finance-real.ts`:
`debt / (collateral * liquidationThreshold)`. -/
def calculateLiquidationPrice (collateral debt : ℚ) : ℚ :=
  debt / (collateral * liquidationThreshold)

/-- `getPositionHealth(userAddress)`.  The contract query is passed in as an
`Except`; on query failure the catch block re-throws (`.error`).  On success
the body derives `ltv = debt / collateral` and
`healthFactor = collateral * 0.8 / debt` with NO guard on `collateral = 0`
(JS: the quotient is `Infinity`/`NaN`; over `ℚ` it is `0` — no theorem below
depends on that value) and always returns the position. -/
def getPositionHealth (query : Except SourceError RawPositionData) :
    Except SourceError YeiPosition :=
  match query with
  | .error e => .error e
  | .ok d =>
    let collateral : ℚ := (d.collateral : ℚ) / 1000000
    let debt : ℚ := (d.debt : ℚ) / 1000000
    let ltv : ℚ := debt / collateral
    let healthFactor : ℚ := (collateral * liquidationThreshold) / debt
    .ok { collateral := collateral, debt := debt,
          healthFactor := healthFactor, ltv := ltv }

end YeiFinanceClient

/-- The three strategy tags of the `LeveragePosition` interface. -/
inductive Strategy where
  | siloBorrow
  | liquidStakingLoop
  | lpLeverage
deriving DecidableEq, Repr

/-- `LeveragePosition` interface of `strategies/leverage.ts`. -/
structure LeveragePosition where
  strategy : Strategy
  collateralAmount : ℚ
  borrowedAmount : ℚ
  leverageRatio : ℚ
  liquidationThreshold : ℚ
  currentLTV : ℚ
deriving DecidableEq, Repr

/-- Calculator failure type posited by the specification (`InvalidInput`). -/
inductive CalcError where
  | invalidInput
deriving DecidableEq, Repr

namespace SEILeverageCalculator

/-- `calculateLeverageParams(collateralSEI, targetLeverage = 2.0,
safetyBuffer = 0.15)`.  The TS body contains no `throw` and no input check;
the `Except` return type records that the `InvalidInput` failure the
specification posits does not exist — every input reaches `.ok`. -/
def calculateLeverageParams (collateralSEI : ℚ) (targetLeverage : ℚ := 2)
    (safetyBuffer : ℚ := 3/20) : Except CalcError LeveragePosition :=
  let maxSafeLTV := (1 - 1/targetLeverage) - safetyBuffer
  let borrowAmount := collateralSEI * maxSafeLTV
  let totalExposure := collateralSEI + borrowAmount
  let actualLeverage := totalExposure / collateralSEI
  .ok { strategy := .siloBorrow
        collateralAmount := collateralSEI
        borrowedAmount := borrowAmount
        leverageRatio := actualLeverage
        liquidationThreshold := 0
        currentLTV := maxSafeLTV }

/-- `calculateLiquidationPrice(collateralValue, borrowedAmount,
liquidationLTV)` of `strategies/leverage.ts`. -/
def calculateLiquidationPrice (collateralValue borrowedAmount liquidationLTV : ℚ) : ℚ :=
  borrowedAmount / (collateralValue * liquidationLTV)

end SEILeverageCalculator

/-- Rendering of JS `Number.prototype.toFixed(digits)` over `ℚ`: round half
away from zero at `digits` decimal places and print with a fixed-width
fractional part.  Used only to build alert messages and report text. -/
def toFixedQ (digits : ℕ) (q : ℚ) : String :=
  let scaled : ℚ := q * (10 : ℚ) ^ digits
  let n : ℤ := if 0 ≤ scaled then ⌊scaled + 1/2⌋ else -⌊(1/2) - scaled⌋
  let m : ℕ := n.natAbs
  let base : ℕ := 10 ^ digits
  let intPart := m / base
  let fracPart := m % base
  let fracStr := toString fracPart
  let padded := String.mk (List.replicate (digits - fracStr.length) '0') ++ fracStr
  let sign := if n < 0 then "-" else ""
  if digits = 0 then sign ++ toString intPart
  else sign ++ toString intPart ++ "." ++ padded

/-- Display text of an alert level. -/
def AlertLevel.text : AlertLevel → String
  | .INFO => "INFO"
  | .WARNING => "WARNING"
  | .CRITICAL => "CRITICAL"

namespace LeverageMonitor

/-- The two mutable histories of a `LeverageMonitor` instance
(`private alerts: MonitoringAlert[]`, `private snapshots: PositionSnapshot[]`). -/
structure MonitorData where
  alerts : List MonitoringAlert
  snapshots : List PositionSnapshot
deriving DecidableEq, Repr

/-- `calculatePnL(collateral, debt, currentPrice)`: entry price `0.45`,
daily borrow cost `debt * price * 0.12 / 365`. -/
def calculatePnL (collateral debt currentPrice : ℚ) : ℚ :=
  let initialValue := collateral * (45/100)
  let currentValue := collateral * currentPrice
  let debtValue := debt * currentPrice
  (currentValue - initialValue) - (debtValue * (12/100) * (1/365))

/-- `addAlert(level, message, actionRequired)`: push the alert, then keep only
the last 50 (`this.alerts.slice(-50)`).  The trailing console output has no
state effect. -/
def addAlert (st : MonitorData) (level : AlertLevel) (message : String)
    (actionRequired : Bool) (now : ℕ) : MonitorData :=
  let alert : MonitoringAlert :=
    { level := level, message := message, timestamp := now,
      actionRequired := actionRequired }
  { st with alerts := capPush 50 st.alerts alert }

/-- The four position states of `displayPositionStatus`. -/
inductive PositionStatus where
  | HEALTHY
  | STABLE
  | WARNING
  | CRITICAL
deriving DecidableEq, Repr

/-- The classification chain of `displayPositionStatus`:
`hf > 2.0 ? HEALTHY : hf > 1.5 ? STABLE : hf > 1.2 ? WARNING : CRITICAL`
(strict comparisons in the source). -/
def positionStatus (healthFactor : ℚ) : PositionStatus :=
  if 2 < healthFactor then .HEALTHY
  else if 3/2 < healthFactor then .STABLE
  else if 6/5 < healthFactor then .WARNING
  else .CRITICAL

/-- The emoji label the source prints for each status. -/
def statusLabel : PositionStatus → String
  | .HEALTHY => "🟢 HEALTHY"
  | .STABLE => "🟡 STABLE"
  | .WARNING => "🟠 WARNING"
  | .CRITICAL => "🔴 CRITICAL"

/-- `checkAlertConditions(snapshot)`.  Three independent blocks: health-factor
alerts (`hf < 1.2` CRITICAL — this branch also fires
`triggerEmergencyProcedures`, whose body performs I/O and console output only
and never touches the histories —, else `hf < 1.5` WARNING), a price-movement
alert against the second-to-last stored snapshot, and an LTV alert
(`ltv > 0.7`). -/
def checkAlertConditions (st : MonitorData) (snapshot : PositionSnapshot)
    (now : ℕ) : MonitorData :=
  let st1 :=
    if snapshot.healthFactor < 6/5 then
      addAlert st .CRITICAL
        ("URGENT: Health factor " ++ toFixedQ 3 snapshot.healthFactor ++
          " - Immediate action required!") true now
    else if snapshot.healthFactor < 3/2 then
      addAlert st .WARNING
        ("Low health factor " ++ toFixedQ 3 snapshot.healthFactor ++
          " - Consider adding collateral") false now
    else st
  let st2 :=
    if 2 ≤ st1.snapshots.length then
      match st1.snapshots[st1.snapshots.length - 2]? with
      | some previousSnapshot =>
        let priceChange :=
          (snapshot.seiPrice - previousSnapshot.seiPrice) / previousSnapshot.seiPrice
        if 1/10 < |priceChange| then
          let direction := if 0 < priceChange then "increased" else "decreased"
          addAlert st1 .WARNING
            ("SEI price " ++ direction ++ " by " ++
              toFixedQ 2 (|priceChange| * 100) ++ "%") false now
        else st1
      | none => st1
    else st1
  if 7/10 < snapshot.ltv then
    addAlert st2 .WARNING
      ("High LTV " ++ toFixedQ 2 (snapshot.ltv * 100) ++
        "% - Near liquidation threshold") true now
  else st2

/-- The snapshot literal built by `performHealthCheck` (lines 88–97). -/
def snapshotOf (position : YeiPosition) (seiPrice : ℚ) (now : ℕ) : PositionSnapshot :=
  { timestamp := now
    collateral := position.collateral
    debt := position.debt
    healthFactor := position.healthFactor
    ltv := position.ltv
    seiPrice := seiPrice
    liquidationPrice :=
      YeiFinanceClient.calculateLiquidationPrice position.collateral position.debt
    netPnL := calculatePnL position.collateral position.debt seiPrice }

/-- `performHealthCheck()`.  The position/price queries are passed in as one
`Except` (either query throwing lands in the catch block).  Success: build the
snapshot, push it with the 100-entry cap, display it, check alert conditions.
Failure: the catch block adds one CRITICAL `actionRequired` alert and returns
normally — the error never propagates (the method's promise resolves). -/
def performHealthCheck (st : MonitorData)
    (fetch : Except SourceError (YeiPosition × ℚ)) (now : ℕ) : MonitorData :=
  match fetch with
  | .ok (position, seiPrice) =>
    let snapshot := snapshotOf position seiPrice now
    let st1 := { st with snapshots := capPush 100 st.snapshots snapshot }
    checkAlertConditions st1 snapshot now
  | .error e =>
    addAlert st .CRITICAL ("Health check failed: " ++ e.msg) true now

/-- The `EmergencyAction` outcome of `triggerEmergencyProcedures`:
what was computed, whether funding sufficed, whether a repay was executed. -/
structure EmergencyAction where
  repayAmount : ℚ
  projectedHealthFactor : ℚ
  fundingSufficient : Bool
  executed : Bool
deriving DecidableEq, Repr

/-- The computation of `triggerEmergencyProcedures` once position and balance
are in hand: `repayAmount = debt * 0.25`, projected health factor
`collateral * 0.8 / (debt - repayAmount)`, funding check
`balance >= repayAmount + 1` (+1 for gas).  The
`await this.yeiClient.emergencyRepay(repayAmount)` call is commented out in
the source, so no branch executes a repay. -/
def emergencyPlan (position : YeiPosition) (balance : ℚ) : EmergencyAction :=
  let repayAmount := position.debt * (1/4)
  let projectedHealthFactor :=
    (position.collateral * YeiFinanceClient.liquidationThreshold) /
      (position.debt - repayAmount)
  let fundingSufficient := decide (repayAmount + 1 ≤ balance)
  { repayAmount := repayAmount
    projectedHealthFactor := projectedHealthFactor
    fundingSufficient := fundingSufficient
    executed := false }

/-- `triggerEmergencyProcedures()`: the position/balance queries are passed in
as one `Except`; the catch block logs and returns normally (`none`), so the
method never raises. -/
def triggerEmergencyProcedures
    (fetch : Except SourceError (YeiPosition × ℚ)) : Option EmergencyAction :=
  match fetch with
  | .ok (position, balance) => some (emergencyPlan position balance)
  | .error _ => none

end LeverageMonitor

namespace LeverageMonitor

/-- The `performance` record of `getDashboard`. -/
structure DashboardPerformance where
  totalPnL : ℚ
  dailyYield : ℚ
  healthTrend : String
deriving DecidableEq, Repr

/-- The return value of `getDashboard`. -/
structure Dashboard where
  currentPosition : Option PositionSnapshot
  recentAlerts : List MonitoringAlert
  performance : DashboardPerformance
deriving DecidableEq, Repr

/-- `calculateDailyYield()`: `0` with fewer than two snapshots, otherwise
`(latest.collateral + latest.debt) * 0.08 / 365` (staking APY 8%).  The
source indexes `snapshots[length - 1]` unconditionally; the `none` branch is
unreachable under the guard. -/
def calculateDailyYield (st : MonitorData) : ℚ :=
  if st.snapshots.length < 2 then 0
  else
    match st.snapshots[st.snapshots.length - 1]? with
    | some latest => (latest.collateral + latest.debt) * (8/100) / 365
    | none => 0

/-- `getDashboard()`: last snapshot (or `null`), last 10 alerts, and the
performance block.  `totalPnL` is `currentPosition?.netPnL || 0` — over `ℚ`
the `|| 0` only remaps the falsy value `0` to `0`, so it is the identity on
the present branch.  `healthTrend` compares the first and third of the last
three snapshots when at least three exist. -/
def getDashboard (st : MonitorData) : Dashboard :=
  let currentPosition :=
    if 0 < st.snapshots.length then st.snapshots[st.snapshots.length - 1]? else none
  let recentAlerts := takeLast 10 st.alerts
  let healthTrend :=
    if 3 ≤ st.snapshots.length then
      match takeLast 3 st.snapshots with
      | [a, _, c] =>
        let trend := c.healthFactor - a.healthFactor
        if 1/10 < trend then "IMPROVING"
        else if trend < -(1/10) then "DECLINING"
        else "STABLE"
      | _ => "STABLE"
    else "STABLE"
  { currentPosition := currentPosition
    recentAlerts := recentAlerts
    performance :=
      { totalPnL := match currentPosition with | some p => p.netPnL | none => 0
        dailyYield := calculateDailyYield st
        healthTrend := healthTrend } }

/-- `generateReport()`: `'No position data available'` when the dashboard has
no current position, otherwise the formatted report template (`now` stands
for `new Date().toLocaleString()`). -/
def generateReport (st : MonitorData) (now : ℕ) : String :=
  let dashboard := getDashboard st
  match dashboard.currentPosition with
  | none => "No position data available"
  | some position =>
    "\n📊 LEVERAGE POSITION REPORT\nGenerated: " ++ toString now ++
    "\n\n🏦 POSITION OVERVIEW\n├─ Collateral: " ++ toFixedQ 4 position.collateral ++
    " SEI\n├─ Debt: " ++ toFixedQ 4 position.debt ++
    " SEI\n├─ Health Factor: " ++ toFixedQ 3 position.healthFactor ++
    "\n├─ LTV: " ++ toFixedQ 2 (position.ltv * 100) ++
    "%\n└─ Net P&L: " ++ toFixedQ 4 position.netPnL ++
    " SEI\n\n📈 PERFORMANCE\n├─ Daily Yield: " ++
    toFixedQ 4 dashboard.performance.dailyYield ++
    " SEI\n├─ Health Trend: " ++ dashboard.performance.healthTrend ++
    "\n└─ Total Snapshots: " ++ toString st.snapshots.length ++
    "\n\n🚨 RECENT ALERTS: " ++ toString dashboard.recentAlerts.length ++ "\n" ++
    String.intercalate "\n"
      ((takeLast 3 dashboard.recentAlerts).map fun alert =>
        "├─ " ++ alert.level.text ++ ": " ++ alert.message) ++
    "\n\n💡 RECOMMENDATIONS\n" ++
    (if position.healthFactor < 3/2 then
      "├─ ⚠️ Consider adding collateral or repaying debt"
     else "├─ ✅ Position is healthy") ++ "\n" ++
    (if 3/5 < position.ltv then "├─ ⚠️ High leverage - monitor closely"
     else "├─ ✅ Safe leverage level") ++
    "\n└─ 🔄 Continue monitoring every 15 minutes\n"

/-- The timer-related state of a `LeverageMonitor` instance:
the `isMonitoring` flag, the number of live `setInterval` timers, and how many
health checks have begun.  The source stores no interval handle and never
calls `clearInterval`, so no transition decrements `intervalTimers`. -/
structure MonitorProcess where
  isMonitoring : Bool
  intervalTimers : ℕ
  healthChecksBegun : ℕ
deriving DecidableEq, Repr

/-- Fresh monitor: not monitoring, no timer, no checks yet. -/
def initialMonitor : MonitorProcess :=
  { isMonitoring := false, intervalTimers := 0, healthChecksBegun := 0 }

/-- `startMonitoring()`: no-op when already monitoring; otherwise set the
flag, run an immediate health check, and register a recurring 15-minute
`setInterval` whose handle is discarded. -/
def startMonitoring (p : MonitorProcess) : MonitorProcess :=
  if p.isMonitoring then p
  else
    { isMonitoring := true
      intervalTimers := p.intervalTimers + 1
      healthChecksBegun := p.healthChecksBegun + 1 }

/-- `stopMonitoring()`: sets `isMonitoring = false` and logs.  No interval
handle was stored, so no timer is cancelled. -/
def stopMonitoring (p : MonitorProcess) : MonitorProcess :=
  { p with isMonitoring := false }

/-- External events of the monitoring loop: the two public calls plus the
elapse of a 15-minute interval tick (which fires the scheduled callback when
at least one interval timer is live). -/
inductive MonitorEvent where
  | start
  | stop
  | tick
deriving DecidableEq, Repr

/-- One step of the monitoring loop.  A `tick` begins a health check exactly
when some `setInterval` registration is live; the callback reads no flag. -/
def monitorStep (p : MonitorProcess) : MonitorEvent → MonitorProcess
  | .start => startMonitoring p
  | .stop => stopMonitoring p
  | .tick =>
    if 0 < p.intervalTimers then
      { p with healthChecksBegun := p.healthChecksBegun + 1 }
    else p

/-- Run the monitoring loop from a fresh monitor over a list of events. -/
def runMonitor (events : List MonitorEvent) : MonitorProcess :=
  events.foldl monitorStep initialMonitor

end LeverageMonitor

/-! ## Ring-buffer lemmas for the bounded histories -/

theorem capPush_eq_takeLast {α : Type} (cap : ℕ) (xs : List α) (x : α) :
    capPush cap xs x = takeLast cap (xs ++ [x]) := by
  simp only [capPush, takeLast]
  split_ifs with h
  · rfl
  · rw [Nat.sub_eq_zero_of_le (Nat.le_of_not_lt h), List.drop_zero]

theorem takeLast_of_length_le {α : Type} (cap : ℕ) (xs : List α)
    (h : xs.length ≤ cap) : takeLast cap xs = xs := by
  unfold takeLast
  rw [Nat.sub_eq_zero_of_le h, List.drop_zero]

theorem takeLast_length_le {α : Type} (cap : ℕ) (xs : List α) :
    (takeLast cap xs).length ≤ cap := by
  unfold takeLast
  rw [List.length_drop]
  omega

theorem takeLast_absorb {α : Type} (cap : ℕ) (xs ys : List α) :
    takeLast cap (takeLast cap xs ++ ys) = takeLast cap (xs ++ ys) := by
  unfold takeLast
  rw [← List.drop_append_of_le_length (show xs.length - cap ≤ xs.length by omega),
    List.drop_drop, List.length_drop, List.length_append]
  congr 1
  omega

theorem foldl_capPush {α : Type} (cap : ℕ) :
    ∀ (l : List α) (acc : List α), acc.length ≤ cap →
      List.foldl (capPush cap) acc l = takeLast cap (acc ++ l)
  | [], acc, h => by
    simpa using (takeLast_of_length_le cap acc h).symm
  | x :: l, acc, _ => by
    have hlen : (capPush cap acc x).length ≤ cap := by
      rw [capPush_eq_takeLast]
      exact takeLast_length_le cap _
    rw [List.foldl_cons, foldl_capPush cap l (capPush cap acc x) hlen,
      capPush_eq_takeLast, takeLast_absorb]
    simp

theorem foldl_capPush_nil {α : Type} (cap : ℕ) (l : List α) :
    List.foldl (capPush cap) [] l = takeLast cap l := by
  simpa using foldl_capPush cap l [] (by simp)

/-! ## Claim theorems -/

/-- C2 counterexample: the source classifies with strict `>` comparisons, so
`healthFactor = 1.2` is CRITICAL rather than WARNING, `1.5` is WARNING rather
than STABLE, and `2.0` is STABLE rather than HEALTHY — the claimed closed
lower bounds fail at every boundary point. -/
theorem classification_closed_bounds_counterexample :
    LeverageMonitor.positionStatus (6/5) ≠ LeverageMonitor.PositionStatus.WARNING ∧
    LeverageMonitor.positionStatus (3/2) ≠ LeverageMonitor.PositionStatus.STABLE ∧
    LeverageMonitor.positionStatus 2 ≠ LeverageMonitor.PositionStatus.HEALTHY := by
  refine ⟨?_, ?_, ?_⟩ <;>
    · unfold LeverageMonitor.positionStatus
      norm_num
      decide

/-- C2 (amended): health-factor classification uses open (strict) lower
bounds: a snapshot with `healthFactor = 1.2` is CRITICAL, `1.19999` is
CRITICAL, `1.5` is WARNING and `2.0` is STABLE; in general the bands are
`hf ≤ 1.2` CRITICAL, `1.2 < hf ≤ 1.5` WARNING, `1.5 < hf ≤ 2` STABLE and
`2 < hf` HEALTHY. -/
theorem classification_strict_bounds :
    LeverageMonitor.positionStatus (6/5) = LeverageMonitor.PositionStatus.CRITICAL ∧
    LeverageMonitor.positionStatus (119999/100000) = LeverageMonitor.PositionStatus.CRITICAL ∧
    LeverageMonitor.positionStatus (3/2) = LeverageMonitor.PositionStatus.WARNING ∧
    LeverageMonitor.positionStatus 2 = LeverageMonitor.PositionStatus.STABLE ∧
    (∀ hf : ℚ, LeverageMonitor.positionStatus hf = LeverageMonitor.PositionStatus.CRITICAL ↔
      hf ≤ 6/5) ∧
    (∀ hf : ℚ, LeverageMonitor.positionStatus hf = LeverageMonitor.PositionStatus.WARNING ↔
      6/5 < hf ∧ hf ≤ 3/2) ∧
    (∀ hf : ℚ, LeverageMonitor.positionStatus hf = LeverageMonitor.PositionStatus.STABLE ↔
      3/2 < hf ∧ hf ≤ 2) ∧
    (∀ hf : ℚ, LeverageMonitor.positionStatus hf = LeverageMonitor.PositionStatus.HEALTHY ↔
      2 < hf) := by
  have hC : ∀ hf : ℚ,
      LeverageMonitor.positionStatus hf = LeverageMonitor.PositionStatus.CRITICAL ↔
        hf ≤ 6/5 := by
    intro hf
    unfold LeverageMonitor.positionStatus
    split_ifs with h1 h2 h3
    · exact iff_of_false (by simp) (not_le.mpr (by linarith))
    · exact iff_of_false (by simp) (not_le.mpr (by linarith))
    · exact iff_of_false (by simp) (not_le.mpr h3)
    · exact iff_of_true rfl (le_of_not_lt h3)
  have hW : ∀ hf : ℚ,
      LeverageMonitor.positionStatus hf = LeverageMonitor.PositionStatus.WARNING ↔
        6/5 < hf ∧ hf ≤ 3/2 := by
    intro hf
    unfold LeverageMonitor.positionStatus
    split_ifs with h1 h2 h3
    · exact iff_of_false (by simp) (fun h => absurd h.2 (not_le.mpr (by linarith)))
    · exact iff_of_false (by simp) (fun h => absurd h.2 (not_le.mpr h2))
    · exact iff_of_true rfl ⟨h3, le_of_not_lt h2⟩
    · exact iff_of_false (by simp) (fun h => h3 h.1)
  have hS : ∀ hf : ℚ,
      LeverageMonitor.positionStatus hf = LeverageMonitor.PositionStatus.STABLE ↔
        3/2 < hf ∧ hf ≤ 2 := by
    intro hf
    unfold LeverageMonitor.positionStatus
    split_ifs with h1 h2 h3
    · exact iff_of_false (by simp) (fun h => absurd h.2 (not_le.mpr h1))
    · exact iff_of_true rfl ⟨h2, le_of_not_lt h1⟩
    · exact iff_of_false (by simp) (fun h => h2 h.1)
    · exact iff_of_false (by simp) (fun h => h2 h.1)
  have hH : ∀ hf : ℚ,
      LeverageMonitor.positionStatus hf = LeverageMonitor.PositionStatus.HEALTHY ↔
        2 < hf := by
    intro hf
    unfold LeverageMonitor.positionStatus
    split_ifs with h1 h2 h3
    · exact iff_of_true rfl h1
    · exact iff_of_false (by simp) h1
    · exact iff_of_false (by simp) h1
    · exact iff_of_false (by simp) h1
  exact ⟨(hC _).mpr (by norm_num), (hC _).mpr (by norm_num),
    (hW _).mpr (by norm_num), (hS _).mpr (by norm_num), hC, hW, hS, hH⟩

/-- C3 counterexample: `calculateLeverageParams` performs no input check — at
`collateral = -1 ≤ 0` and `targetLeverage = 1 ≤ 1` it succeeds and returns
the position the formulas produce instead of failing with `InvalidInput`. -/
theorem leverage_params_no_validation_counterexample :
    SEILeverageCalculator.calculateLeverageParams (-1) 1 (3/20) =
      Except.ok { strategy := .siloBorrow, collateralAmount := -1,
                  borrowedAmount := 3/20, leverageRatio := 17/20,
                  liquidationThreshold := 0, currentLTV := -(3/20) } := by
  norm_num [SEILeverageCalculator.calculateLeverageParams]

/-- C3 (amended): `calculateLeverageParams` performs no input validation and
never fails: for every input — `collateral ≤ 0` and `targetLeverage ≤ 1`
included — it returns a `LeveragePosition` whose fields follow the source
formulas `maxSafeLTV = (1 - 1/targetLeverage) - safetyBuffer` and
`borrowAmount = collateral * maxSafeLTV`. -/
theorem leverage_params_total :
    ∀ collateralSEI targetLeverage safetyBuffer : ℚ,
      ∃ p : LeveragePosition,
        SEILeverageCalculator.calculateLeverageParams collateralSEI targetLeverage
            safetyBuffer = Except.ok p ∧
        p.collateralAmount = collateralSEI ∧
        p.currentLTV = (1 - 1/targetLeverage) - safetyBuffer ∧
        p.borrowedAmount = collateralSEI * ((1 - 1/targetLeverage) - safetyBuffer) := by
  intro c t s
  exact ⟨_, rfl, rfl, rfl, rfl⟩

/-- C5: the emergency procedure repays exactly 25% of the debt and projects
`healthFactor = collateral * liquidationThreshold / (debt - repayAmount)`
(with the protocol's fixed threshold 0.8); at `debt = 100, collateral = 150`
this gives `repayAmount = 25` and projected health factor `8/5 = 1.6`. -/
theorem emergency_repay_policy :
    (∀ (position : YeiPosition) (balance : ℚ),
      (LeverageMonitor.emergencyPlan position balance).repayAmount =
        position.debt * (1/4) ∧
      (LeverageMonitor.emergencyPlan position balance).projectedHealthFactor =
        (position.collateral * YeiFinanceClient.liquidationThreshold) /
          (position.debt - (LeverageMonitor.emergencyPlan position balance).repayAmount)) ∧
    (∀ (healthFactor ltv balance : ℚ),
      (LeverageMonitor.emergencyPlan ⟨150, 100, healthFactor, ltv⟩ balance).repayAmount = 25 ∧
      (LeverageMonitor.emergencyPlan ⟨150, 100, healthFactor, ltv⟩ balance).projectedHealthFactor = 8/5) := by
  refine ⟨fun position balance => ⟨rfl, rfl⟩, fun hf ltv balance => ⟨?_, ?_⟩⟩ <;>
    norm_num [LeverageMonitor.emergencyPlan, YeiFinanceClient.liquidationThreshold]

/-- C6: whenever the queried balance is below `repayAmount + 1` (the 1-unit
gas reserve), the emergency procedure reports `fundingSufficient = false`,
executes no repay (the source's `emergencyRepay` call is commented out in
every branch), and returns normally rather than raising. -/
theorem insufficient_funding_reported :
    ∀ (position : YeiPosition) (balance : ℚ),
      balance < position.debt * (1/4) + 1 →
      (LeverageMonitor.emergencyPlan position balance).fundingSufficient = false ∧
      (LeverageMonitor.emergencyPlan position balance).executed = false ∧
      LeverageMonitor.triggerEmergencyProcedures (Except.ok (position, balance)) =
        some (LeverageMonitor.emergencyPlan position balance) := by
  intro position balance h
  exact ⟨decide_eq_false (not_le.mpr h), rfl, rfl⟩

/-- C6 witness at `debt = 100`, `balance = 10 < 25 + 1`. -/
theorem insufficient_funding_reported_witness :
    (10 : ℚ) < 100 * (1/4) + 1 ∧
    (LeverageMonitor.emergencyPlan ⟨150, 100, 6/5, 2/3⟩ 10).fundingSufficient = false ∧
    (LeverageMonitor.emergencyPlan ⟨150, 100, 6/5, 2/3⟩ 10).executed = false :=
  ⟨by norm_num,
   (insufficient_funding_reported ⟨150, 100, 6/5, 2/3⟩ 10 (by norm_num)).1,
   (insufficient_funding_reported ⟨150, 100, 6/5, 2/3⟩ 10 (by norm_num)).2.1⟩

/-- C7: a cycle whose position/price query fails appends exactly one CRITICAL
`actionRequired` alert ("Health check failed: ..."), leaves the snapshot
history untouched, and returns normally — `performHealthCheck` catches the
error instead of propagating it. -/
theorem failed_cycle_atomicity :
    ∀ (st : LeverageMonitor.MonitorData) (e : SourceError) (now : ℕ),
      (LeverageMonitor.performHealthCheck st (Except.error e) now).snapshots =
        st.snapshots ∧
      (LeverageMonitor.performHealthCheck st (Except.error e) now).alerts =
        capPush 50 st.alerts
          { level := .CRITICAL, message := "Health check failed: " ++ e.msg,
            timestamp := now, actionRequired := true } := by
  intro st e now
  exact ⟨rfl, rfl⟩

/-- C1 (behaviour at the failing trace): after `startMonitoring()` then
`stopMonitoring()` the flag is down and exactly one health check has begun,
yet the next 15-minute tick begins another health check — the recurring
`setInterval` registered by `startMonitoring` is never cancelled, so the
number of health checks performed after `stopMonitoring` returns is not
zero. -/
theorem monitor_check_after_stop :
    (LeverageMonitor.runMonitor [.start, .stop]).isMonitoring = false ∧
    (LeverageMonitor.runMonitor [.start, .stop]).healthChecksBegun = 1 ∧
    (LeverageMonitor.runMonitor [.start, .stop]).intervalTimers = 1 ∧
    (LeverageMonitor.runMonitor [.start, .stop, .tick]).healthChecksBegun = 2 := by
  decide

/-- Generic eviction step behind the C4 law: from an empty history, pushing
`cap + 1` entries through `capPush cap` keeps exactly the last `cap`. -/
theorem capPush_evict {α : Type} (cap : ℕ) (x : α) (xs : List α)
    (hlen : xs.length = cap) :
    List.foldl (capPush cap) [] (x :: xs) = xs := by
  rw [foldl_capPush_nil]
  unfold takeLast
  simp [hlen]

/-- C4: both histories obey the oldest-evicted ring-buffer law — snapshot
history never exceeds 100 entries and alert history never exceeds 50, under
any sequence of appends; after capacity+1 inserts the oldest entry is gone
and the remaining entries keep insertion order (the result is exactly the
later entries). -/
theorem history_ring_buffer :
    (∀ l : List PositionSnapshot, (List.foldl (capPush 100) [] l).length ≤ 100) ∧
    (∀ l : List MonitoringAlert, (List.foldl (capPush 50) [] l).length ≤ 50) ∧
    (∀ (x : PositionSnapshot) (xs : List PositionSnapshot),
      xs.length = 100 → x ∉ xs →
      List.foldl (capPush 100) [] (x :: xs) = xs ∧
      x ∉ List.foldl (capPush 100) [] (x :: xs)) ∧
    (∀ (a : MonitoringAlert) (as : List MonitoringAlert),
      as.length = 50 → a ∉ as →
      List.foldl (capPush 50) [] (a :: as) = as ∧
      a ∉ List.foldl (capPush 50) [] (a :: as)) := by
  refine ⟨?_, ?_, ?_, ?_⟩
  · intro l
    rw [foldl_capPush_nil]
    exact takeLast_length_le _ _
  · intro l
    rw [foldl_capPush_nil]
    exact takeLast_length_le _ _
  · intro x xs hlen hmem
    have heq := capPush_evict 100 x xs hlen
    exact ⟨heq, by rw [heq]; exact hmem⟩
  · intro a as hlen hmem
    have heq := capPush_evict 50 a as hlen
    exact ⟨heq, by rw [heq]; exact hmem⟩

/-- Snapshot with a distinguishing timestamp, used to witness C4. -/
def snapAt (n : ℕ) : PositionSnapshot :=
  { timestamp := n, collateral := 0, debt := 0, healthFactor := 0, ltv := 0,
    seiPrice := 0, liquidationPrice := 0, netPnL := 0 }

/-- Alert with a distinguishing timestamp, used to witness C4. -/
def alertAt (n : ℕ) : MonitoringAlert :=
  { level := .INFO, message := "", timestamp := n, actionRequired := false }

/-- C4 witness: 101 distinct snapshots and 51 distinct alerts, pushed from
empty histories, leave exactly the later 100 resp. 50 entries in order. -/
theorem history_ring_buffer_witness :
    ((List.range 100).map snapAt).length = 100 ∧
    snapAt 100 ∉ (List.range 100).map snapAt ∧
    List.foldl (capPush 100) [] (snapAt 100 :: (List.range 100).map snapAt) =
      (List.range 100).map snapAt ∧
    ((List.range 50).map alertAt).length = 50 ∧
    alertAt 50 ∉ (List.range 50).map alertAt ∧
    List.foldl (capPush 50) [] (alertAt 50 :: (List.range 50).map alertAt) =
      (List.range 50).map alertAt :=
  ⟨by simp, by decide,
   (history_ring_buffer.2.2.1 (snapAt 100) _ (by simp) (by decide)).1,
   by simp, by decide,
   (history_ring_buffer.2.2.2 (alertAt 50) _ (by simp) (by decide)).1⟩

/-- C9: `calculateLiquidationPrice` equals `debt / (collateral * threshold)`,
is strictly increasing in debt and strictly decreasing in collateral for
positive arguments. -/
theorem liquidation_price_monotone :
    (∀ collateral th d1 d2 : ℚ, 0 < collateral → 0 < th → d1 < d2 →
      SEILeverageCalculator.calculateLiquidationPrice collateral d1 th <
        SEILeverageCalculator.calculateLiquidationPrice collateral d2 th) ∧
    (∀ c1 c2 debt th : ℚ, 0 < c1 → c1 < c2 → 0 < debt → 0 < th →
      SEILeverageCalculator.calculateLiquidationPrice c2 debt th <
        SEILeverageCalculator.calculateLiquidationPrice c1 debt th) ∧
    (∀ collateral debt th : ℚ,
      SEILeverageCalculator.calculateLiquidationPrice collateral debt th =
        debt / (collateral * th)) := by
  refine ⟨?_, ?_, fun _ _ _ => rfl⟩
  · intro c th d1 d2 hc hth hd
    unfold SEILeverageCalculator.calculateLiquidationPrice
    exact (div_lt_div_iff_of_pos_right (mul_pos hc hth)).mpr hd
  · intro c1 c2 debt th hc1 hcc hdebt hth
    unfold SEILeverageCalculator.calculateLiquidationPrice
    exact div_lt_div_of_pos_left hdebt (mul_pos hc1 hth)
      (mul_lt_mul_of_pos_right hcc hth)

/-- C9 witness: concrete monotonicity instances at threshold 0.8. -/
theorem liquidation_price_monotone_witness :
    (0 : ℚ) < 2 ∧ (0 : ℚ) < 4/5 ∧ (1 : ℚ) < 3 ∧ (2 : ℚ) < 3 ∧
    SEILeverageCalculator.calculateLiquidationPrice 2 1 (4/5) <
      SEILeverageCalculator.calculateLiquidationPrice 2 3 (4/5) ∧
    SEILeverageCalculator.calculateLiquidationPrice 3 1 (4/5) <
      SEILeverageCalculator.calculateLiquidationPrice 2 1 (4/5) :=
  ⟨by norm_num, by norm_num, by norm_num, by norm_num,
   liquidation_price_monotone.1 2 (4/5) 1 3 (by norm_num) (by norm_num) (by norm_num),
   liquidation_price_monotone.2.1 2 3 1 (4/5) (by norm_num) (by norm_num)
     (by norm_num) (by norm_num)⟩

/-- C10: with an empty snapshot history `getDashboard` returns no current
position, the last (at most) 10 alerts, `totalPnL = 0`, `dailyYield = 0` and
`healthTrend = STABLE`, and `generateReport` returns
"No position data available"; both are pure reads of the monitor state. -/
theorem empty_history_dashboard :
    ∀ (alerts : List MonitoringAlert) (now : ℕ),
      LeverageMonitor.getDashboard ⟨alerts, []⟩ =
        { currentPosition := none
          recentAlerts := takeLast 10 alerts
          performance := { totalPnL := 0, dailyYield := 0, healthTrend := "STABLE" } } ∧
      LeverageMonitor.generateReport ⟨alerts, []⟩ now = "No position data available" := by
  intro alerts now
  exact ⟨rfl, rfl⟩

/-- `addAlert` touches only the alert history. -/
theorem addAlert_snapshots (st : LeverageMonitor.MonitorData) (level : AlertLevel)
    (message : String) (required : Bool) (now : ℕ) :
    (LeverageMonitor.addAlert st level message required now).snapshots =
      st.snapshots := rfl

/-- `checkAlertConditions` only adds alerts; the snapshot history is
untouched in every branch. -/
theorem checkAlertConditions_snapshots (st : LeverageMonitor.MonitorData)
    (snapshot : PositionSnapshot) (now : ℕ) :
    (LeverageMonitor.checkAlertConditions st snapshot now).snapshots =
      st.snapshots := by
  unfold LeverageMonitor.checkAlertConditions
  dsimp only
  split_ifs <;>
    first
      | rfl
      | (split <;>
          first
            | rfl
            | (split_ifs <;> rfl))

/-- C8 counterexample: with `collateral = 0` (debt 50 SEI) the position query
derivation does NOT fail — there is no `DegenerateState` guard; the
`loanToValue` division is unguarded (`Infinity` in JS, the junk value `0`
over `ℚ`), the cycle proceeds, and a snapshot IS recorded (history length
grows from 0 to 1). -/
theorem zero_collateral_no_failure_counterexample :
    YeiFinanceClient.getPositionHealth (Except.ok ⟨0, 50000000⟩) =
      Except.ok ⟨0, 50, 0, 0⟩ ∧
    (LeverageMonitor.performHealthCheck ⟨[], []⟩
        (Except.ok (⟨0, 50, 0, 0⟩, 45/100)) 0).snapshots.length = 1 := by
  constructor
  · simp only [YeiFinanceClient.getPositionHealth,
      YeiFinanceClient.liquidationThreshold, Except.ok.injEq, YeiPosition.mk.injEq]
    norm_num
  · simp [LeverageMonitor.performHealthCheck, checkAlertConditions_snapshots,
      capPush, takeLast]

/-- C8 (amended): `getPositionHealth` has no zero-collateral guard: a
zero-collateral query succeeds (returning a position whose `loanToValue` is
the unguarded quotient), and every successful cycle — the zero-collateral one
included — proceeds to record its snapshot in the bounded history. -/
theorem zero_collateral_cycle_proceeds :
    ∀ (debtMicro : ℕ) (st : LeverageMonitor.MonitorData) (position : YeiPosition)
      (price : ℚ) (now : ℕ),
      (∃ p : YeiPosition,
        YeiFinanceClient.getPositionHealth (Except.ok ⟨0, debtMicro⟩) =
          Except.ok p ∧ p.collateral = 0) ∧
      (LeverageMonitor.performHealthCheck st (Except.ok (position, price)) now).snapshots =
        capPush 100 st.snapshots (LeverageMonitor.snapshotOf position price now) := by
  intro debtMicro st position price now
  constructor
  · refine ⟨_, rfl, ?_⟩
    simp
  · unfold LeverageMonitor.performHealthCheck
    exact checkAlertConditions_snapshots _ _ _
